import Mathlib

/-!
Shallow embedding of the Black-Scholes option-analytics engine
(`src/black_scholes.cpp`, `src/black_scholes_greeks.cpp`, the Monte Carlo
pricer and the strategy layer), with theorems checking the specification's
claims against it.  C++ `double` arithmetic is idealised over `ℝ`; thrown
`std::invalid_argument` exceptions are embedded as `Except.error`.
-/

open scoped Classical

noncomputable section

namespace BS

/-- MIN_VOLATILITY constant from the anonymous namespace of black_scholes.cpp. -/
def MIN_VOLATILITY : ℝ := 1e-10

/-- MIN_TIME_TO_EXPIRY constant from the anonymous namespace of black_scholes.cpp. -/
def MIN_TIME_TO_EXPIRY : ℝ := 1e-10

/-- Model of the C++ standard library error function `std::erf`,
`erf x = 2/√π · ∫ t in 0..x, exp (-t²)`. -/
def erf (x : ℝ) : ℝ := (2 / Real.sqrt Real.pi) * ∫ t in (0:ℝ)..x, Real.exp (-(t ^ 2))

/-- BlackScholes::standardNormalCDF: `0.5 * (1.0 + std::erf(x / std::sqrt(2.0)))`. -/
def standardNormalCDF (x : ℝ) : ℝ := 0.5 * (1 + erf (x / Real.sqrt 2))

/-- BlackScholes::standardNormalPDF: `(1.0 / std::sqrt(2.0 * M_PI)) * std::exp(-0.5 * x * x)`. -/
def standardNormalPDF (x : ℝ) : ℝ :=
  (1 / Real.sqrt (2 * Real.pi)) * Real.exp (-0.5 * x * x)

/-- Static helper callIntrinsic from black_scholes.cpp. -/
def callIntrinsic (spot_price strike_price : ℝ) : ℝ := max (spot_price - strike_price) 0

/-- Static helper putIntrinsic from black_scholes.cpp. -/
def putIntrinsic (spot_price strike_price : ℝ) : ℝ := max (strike_price - spot_price) 0

/-- Value computed by BlackScholes::calculateCallPrice once the argument guards
have passed (lines 49-66 of black_scholes.cpp). -/
def callPriceVal (spot_price strike_price risk_free_rate volatility time_to_expiry : ℝ) : ℝ :=
  if time_to_expiry < MIN_TIME_TO_EXPIRY then
    callIntrinsic spot_price strike_price
  else if volatility < MIN_VOLATILITY then
    Real.exp (-risk_free_rate * time_to_expiry) *
      max (spot_price * Real.exp (risk_free_rate * time_to_expiry) - strike_price) 0
  else
    let sigma_sq := volatility * volatility
    let sigma_sqrt_T := volatility * Real.sqrt time_to_expiry
    let d1 := (Real.log (spot_price / strike_price) +
               (risk_free_rate + 0.5 * sigma_sq) * time_to_expiry) / sigma_sqrt_T
    let d2 := d1 - sigma_sqrt_T
    spot_price * standardNormalCDF d1 -
      strike_price * Real.exp (-risk_free_rate * time_to_expiry) * standardNormalCDF d2

/-- Value computed by BlackScholes::calculatePutPrice once the argument guards
have passed (lines 84-100 of black_scholes.cpp). -/
def putPriceVal (spot_price strike_price risk_free_rate volatility time_to_expiry : ℝ) : ℝ :=
  if time_to_expiry < MIN_TIME_TO_EXPIRY then
    putIntrinsic spot_price strike_price
  else if volatility < MIN_VOLATILITY then
    Real.exp (-risk_free_rate * time_to_expiry) *
      max (strike_price - spot_price * Real.exp (risk_free_rate * time_to_expiry)) 0
  else
    let sigma_sq := volatility * volatility
    let sigma_sqrt_T := volatility * Real.sqrt time_to_expiry
    let d1 := (Real.log (spot_price / strike_price) +
               (risk_free_rate + 0.5 * sigma_sq) * time_to_expiry) / sigma_sqrt_T
    let d2 := d1 - sigma_sqrt_T
    strike_price * Real.exp (-risk_free_rate * time_to_expiry) * standardNormalCDF (-d2) -
      spot_price * standardNormalCDF (-d1)

/-- BlackScholes::calculateCallPrice, with the thrown `std::invalid_argument`
embedded as `Except.error`. -/
def calculateCallPrice (spot_price strike_price risk_free_rate volatility time_to_expiry : ℝ) :
    Except String ℝ :=
  if spot_price ≤ 0 ∨ strike_price ≤ 0 then
    .error "Invalid input: spot and strike must be positive"
  else if time_to_expiry < 0 then
    .error "Invalid input: time_to_expiry must be non-negative"
  else
    .ok (callPriceVal spot_price strike_price risk_free_rate volatility time_to_expiry)

/-- BlackScholes::calculatePutPrice, with the thrown `std::invalid_argument`
embedded as `Except.error`. -/
def calculatePutPrice (spot_price strike_price risk_free_rate volatility time_to_expiry : ℝ) :
    Except String ℝ :=
  if spot_price ≤ 0 ∨ strike_price ≤ 0 then
    .error "Invalid input: spot and strike must be positive"
  else if time_to_expiry < 0 then
    .error "Invalid input: time_to_expiry must be non-negative"
  else
    .ok (putPriceVal spot_price strike_price risk_free_rate volatility time_to_expiry)

/-- OptionType enumeration from option.h. -/
inductive OptionType
  | CALL
  | PUT
deriving DecidableEq

/-- Model price used by the implied-volatility solver and its bisection
fallback: dispatch on the option type.  The solver only ever calls the C++
pricers with `spot > 0`, `strike > 0`, `T ≥ MIN_TIME_TO_EXPIRY`, so those
calls cannot throw and are embedded by their value functions. -/
def modelPriceVal (option_type : OptionType)
    (spot_price strike_price risk_free_rate volatility time_to_expiry : ℝ) : ℝ :=
  match option_type with
  | OptionType.CALL => callPriceVal spot_price strike_price risk_free_rate volatility time_to_expiry
  | OptionType.PUT => putPriceVal spot_price strike_price risk_free_rate volatility time_to_expiry

/-- Loop body of the bisection fallback `impliedVolatilityBisection`
(lines 120-127 of black_scholes.cpp), with the remaining iteration count as
fuel; fuel 0 is the post-loop `return 0.5 * (a + b)`. -/
def bisectLoop (market_price spot_price strike_price risk_free_rate time_to_expiry : ℝ)
    (option_type : OptionType) : ℕ → ℝ → ℝ → ℝ → ℝ
  | 0, a, b, _ => 0.5 * (a + b)
  | Nat.succ k, a, b, fa =>
    let c := 0.5 * (a + b)
    if (b - a) * 0.5 < 1e-5 then c
    else
      let fc := modelPriceVal option_type spot_price strike_price risk_free_rate c time_to_expiry
                  - market_price
      if |fc| < 1e-5 then c
      else if fa * fc < 0 then
        bisectLoop market_price spot_price strike_price risk_free_rate time_to_expiry
          option_type k a c fa
      else
        bisectLoop market_price spot_price strike_price risk_free_rate time_to_expiry
          option_type k c b fc

/-- Static helper impliedVolatilityBisection from black_scholes.cpp:
`vol_lo = 0.0001`, `vol_hi = 5.0`, `max_it = 80`; returns 0.3 when the
bracket endpoints fail to bracket a root. -/
def impliedVolatilityBisection
    (market_price spot_price strike_price risk_free_rate time_to_expiry : ℝ)
    (option_type : OptionType) : ℝ :=
  let a := (0.0001 : ℝ)
  let b := (5.0 : ℝ)
  let fa := modelPriceVal option_type spot_price strike_price risk_free_rate a time_to_expiry
              - market_price
  let fb := modelPriceVal option_type spot_price strike_price risk_free_rate b time_to_expiry
              - market_price
  if fa * fb > 0 then 0.3
  else bisectLoop market_price spot_price strike_price risk_free_rate time_to_expiry
         option_type 80 a b fa

/-- Newton iteration d1 (lines 153-155 of black_scholes.cpp). -/
def solverD1 (spot_price strike_price risk_free_rate volatility time_to_expiry : ℝ) : ℝ :=
  (Real.log (spot_price / strike_price) +
     (risk_free_rate + 0.5 * volatility * volatility) * time_to_expiry) /
    (volatility * Real.sqrt time_to_expiry)

/-- Newton iteration vega (line 156 of black_scholes.cpp). -/
def solverVega (spot_price strike_price risk_free_rate volatility time_to_expiry : ℝ) : ℝ :=
  spot_price * standardNormalPDF (solverD1 spot_price strike_price risk_free_rate
    volatility time_to_expiry) * Real.sqrt time_to_expiry

/-- Newton-Raphson loop of BlackScholes::calculateImpliedVolatility
(lines 149-173 of black_scholes.cpp), with the remaining iteration count as
fuel; fuel 0 is the post-loop fall-through to the bisection fallback. -/
def newtonLoop (market_price spot_price strike_price risk_free_rate time_to_expiry : ℝ)
    (option_type : OptionType) : ℕ → ℝ → ℝ
  | 0, _ =>
    impliedVolatilityBisection market_price spot_price strike_price risk_free_rate
      time_to_expiry option_type
  | Nat.succ k, vol0 =>
    let volatility := if vol0 < MIN_VOLATILITY then MIN_VOLATILITY else vol0
    let vega := solverVega spot_price strike_price risk_free_rate volatility time_to_expiry
    let model_price :=
      modelPriceVal option_type spot_price strike_price risk_free_rate volatility time_to_expiry
    let price_diff := model_price - market_price
    if |price_diff| < 1e-5 then volatility
    else if vega < 1e-15 then
      impliedVolatilityBisection market_price spot_price strike_price risk_free_rate
        time_to_expiry option_type
    else
      newtonLoop market_price spot_price strike_price risk_free_rate time_to_expiry
        option_type k (max 0.0001 (min (volatility - price_diff / vega) 5.0))

/-- BlackScholes::calculateImpliedVolatility: guard (line 141), then
Newton-Raphson starting at volatility 0.3 with `max_iterations = 100`. -/
def calculateImpliedVolatility
    (market_price spot_price strike_price risk_free_rate time_to_expiry : ℝ)
    (option_type : OptionType) : Except String ℝ :=
  if spot_price ≤ 0 ∨ strike_price ≤ 0 ∨ time_to_expiry < MIN_TIME_TO_EXPIRY ∨
      market_price < 0 then
    .error "Invalid input for implied volatility"
  else
    .ok (newtonLoop market_price spot_price strike_price risk_free_rate time_to_expiry
          option_type 100 0.3)

/-- OptionGreeks structure from black_scholes_greeks.h; all five fields are
zero-initialised. -/
structure OptionGreeks where
  delta : ℝ := 0
  gamma : ℝ := 0
  theta : ℝ := 0
  vega : ℝ := 0
  rho : ℝ := 0

/-- BlackScholesGreeks::calculateCallGreeks: returns the default
(all-zero) OptionGreeks on degenerate inputs instead of throwing. -/
def calculateCallGreeks
    (spot_price strike_price risk_free_rate volatility time_to_expiry : ℝ) : OptionGreeks :=
  if spot_price ≤ 0 ∨ strike_price ≤ 0 ∨ time_to_expiry < MIN_TIME_TO_EXPIRY ∨
      volatility < MIN_VOLATILITY then
    {}
  else
    let sigma_sqrt_T := volatility * Real.sqrt time_to_expiry
    let d1 := (Real.log (spot_price / strike_price) +
               (risk_free_rate + 0.5 * volatility * volatility) * time_to_expiry) / sigma_sqrt_T
    let d2 := d1 - sigma_sqrt_T
    { delta := standardNormalCDF d1
      gamma := standardNormalPDF d1 / (spot_price * sigma_sqrt_T)
      theta := (-spot_price * standardNormalPDF d1 * volatility /
                  (2 * Real.sqrt time_to_expiry) -
                risk_free_rate * strike_price *
                  Real.exp (-risk_free_rate * time_to_expiry) * standardNormalCDF d2) / 365
      vega := spot_price * Real.sqrt time_to_expiry * standardNormalPDF d1 / 100
      rho := strike_price * time_to_expiry * Real.exp (-risk_free_rate * time_to_expiry) *
               standardNormalCDF d2 / 100 }

/-- BlackScholesGreeks::calculatePutGreeks: returns the default
(all-zero) OptionGreeks on degenerate inputs instead of throwing. -/
def calculatePutGreeks
    (spot_price strike_price risk_free_rate volatility time_to_expiry : ℝ) : OptionGreeks :=
  if spot_price ≤ 0 ∨ strike_price ≤ 0 ∨ time_to_expiry < MIN_TIME_TO_EXPIRY ∨
      volatility < MIN_VOLATILITY then
    {}
  else
    let sigma_sqrt_T := volatility * Real.sqrt time_to_expiry
    let d1 := (Real.log (spot_price / strike_price) +
               (risk_free_rate + 0.5 * volatility * volatility) * time_to_expiry) / sigma_sqrt_T
    let d2 := d1 - sigma_sqrt_T
    { delta := standardNormalCDF d1 - 1
      gamma := standardNormalPDF d1 / (spot_price * sigma_sqrt_T)
      theta := (-spot_price * standardNormalPDF d1 * volatility /
                  (2 * Real.sqrt time_to_expiry) +
                risk_free_rate * strike_price *
                  Real.exp (-risk_free_rate * time_to_expiry) * standardNormalCDF (-d2)) / 365
      vega := spot_price * Real.sqrt time_to_expiry * standardNormalPDF d1 / 100
      rho := -strike_price * time_to_expiry * Real.exp (-risk_free_rate * time_to_expiry) *
               standardNormalCDF (-d2) / 100 }

/-- TRADING_DAYS_PER_YEAR constant from the Monte Carlo translation unit. -/
def TRADING_DAYS_PER_YEAR : ℝ := 252.0

/-- C++ `static_cast<int>` on a `double`: truncation toward zero. -/
def truncToInt (x : ℝ) : ℤ := if 0 ≤ x then ⌊x⌋ else ⌈x⌉

/-- Number of loop iterations of the inner step loop of runCallChunk /
runPutChunk: `static_cast<int>(TRADING_DAYS_PER_YEAR * T)`, a non-positive
step count running the loop zero times. -/
def mcSteps (time_to_expiry : ℝ) : ℕ :=
  (truncToInt (TRADING_DAYS_PER_YEAR * time_to_expiry)).toNat

/-- Simulated price after `n` steps of the per-path loop of runCallChunk /
runPutChunk, the successive standard-normal draws of the chunk generator
abstracted as the oracle `z`:
`S *= exp((r - 0.5*vol*vol)*dt + vol*sqrt_dt*z)` with `dt = T/252`. -/
def mcPath (spot risk_free_rate volatility time_to_expiry : ℝ) (z : ℕ → ℝ) : ℕ → ℝ
  | 0 => spot
  | Nat.succ n =>
    mcPath spot risk_free_rate volatility time_to_expiry z n *
      Real.exp ((risk_free_rate - 0.5 * volatility * volatility) *
                  (time_to_expiry / TRADING_DAYS_PER_YEAR) +
                volatility * Real.sqrt (time_to_expiry / TRADING_DAYS_PER_YEAR) * z n)

/-- Payoff accumulated by runCallChunk for one simulation: the simulated
terminal price after `mcSteps T` daily steps, against the strike. -/
def runCallChunkPayoff (spot strike risk_free_rate volatility time_to_expiry : ℝ)
    (z : ℕ → ℝ) : ℝ :=
  max (mcPath spot risk_free_rate volatility time_to_expiry z (mcSteps time_to_expiry) - strike) 0

/-- Payoff accumulated by runPutChunk for one simulation. -/
def runPutChunkPayoff (spot strike risk_free_rate volatility time_to_expiry : ℝ)
    (z : ℕ → ℝ) : ℝ :=
  max (strike - mcPath spot risk_free_rate volatility time_to_expiry z (mcSteps time_to_expiry)) 0

/-- MIN_CHUNK constant from the Monte Carlo translation unit. -/
def MIN_CHUNK : ℕ := 500

/-- Chunk issuance loop of MonteCarloOptionPricer::priceCallOption /
pricePutOption: `for (int start = 0; start < n; ) { end = min(start+chunk, n);
...; start = end; }`, collecting the (start, end) ranges in issuance order.
The `0 < chunk` guard is an embedding artifact: the C++ loop would not
terminate with a zero chunk size, and the pricer always uses
`chunk ≥ MIN_CHUNK = 500`. -/
def buildChunks (n chunk : ℕ) (start : ℕ) : List (ℕ × ℕ) :=
  if _h : start < n ∧ 0 < chunk then
    (start, min (start + chunk) n) :: buildChunks n chunk (min (start + chunk) n)
  else []
termination_by n - start
decreasing_by
  omega

/-- Chunk ranges issued by priceCallOption / pricePutOption for `n`
simulations and chunk size `chunk`. -/
def mcChunks (n chunk : ℕ) : List (ℕ × ℕ) := buildChunks n chunk 0

/-- Successive `done` values passed to the progress callback: after
retrieving future `i` the pricer reports
`done = min((i + 1) * chunk_size, n)`, once per issued chunk, in issuance
order. -/
def progressTrace (n chunk : ℕ) : List ℕ :=
  (List.range (mcChunks n chunk).length).map (fun i => min ((i + 1) * chunk) n)

/-- Chunk size chosen by priceCallOption / pricePutOption:
`n = max(1, num_simulations)`, then
`chunk_size = max(MIN_CHUNK, n / n_workers)` (C++ unsigned division, i.e.
floor division). -/
def mcChunkSize (num_simulations : ℤ) (n_workers : ℕ) : ℕ :=
  max MIN_CHUNK ((max 1 num_simulations).toNat / n_workers)

/-- BullCallSpreadStrategy state relevant to its metric functions
(part_010, lines 395-437). -/
structure BullCallSpreadStrategy where
  long_call_strike : ℝ
  short_call_strike : ℝ
  long_call_premium : ℝ
  short_call_premium : ℝ
  entry_price : ℝ

/-- BullCallSpreadStrategy constructor: the strike-ordering guard throws
first; then each leg is priced via BlackScholes::calculateCallPrice (whose
exceptions propagate out of the constructor) and the entry price is set to
the net debit.  The wall-clock `difftime` conversion of the expiry timestamp
is taken as the `time_to_expiry` input. -/
def mkBullCallSpread (current_price long_strike short_strike volatility risk_free_rate
    time_to_expiry : ℝ) : Except String BullCallSpreadStrategy :=
  if long_strike ≥ short_strike then
    .error "Long call strike must be lower than short call strike for a bull call spread"
  else
    match calculateCallPrice current_price long_strike risk_free_rate volatility
            time_to_expiry with
    | .error e => .error e
    | .ok long_call_premium =>
      match calculateCallPrice current_price short_strike risk_free_rate volatility
              time_to_expiry with
      | .error e => .error e
      | .ok short_call_premium =>
        .ok { long_call_strike := long_strike
              short_call_strike := short_strike
              long_call_premium := long_call_premium
              short_call_premium := short_call_premium
              entry_price := (long_call_premium - short_call_premium) * 100 }

/-- BullCallSpreadStrategy::calculateMaxProfit. -/
def BullCallSpreadStrategy.calculateMaxProfit (s : BullCallSpreadStrategy) : ℝ :=
  (s.short_call_strike - s.long_call_strike) * 100 - s.entry_price

/-- BullCallSpreadStrategy::calculateMaxLoss. -/
def BullCallSpreadStrategy.calculateMaxLoss (s : BullCallSpreadStrategy) : ℝ :=
  s.entry_price

/-- BullCallSpreadStrategy::calculateBreakevens. -/
def BullCallSpreadStrategy.calculateBreakevens (s : BullCallSpreadStrategy) : List ℝ :=
  [s.long_call_strike + s.entry_price / 100]

/-- Under the documented preconditions the call pricer does not throw and
returns its branch value. -/
theorem calculateCallPrice_ok (spot_price strike_price risk_free_rate volatility
    time_to_expiry : ℝ) (hS : 0 < spot_price) (hK : 0 < strike_price) (hT : 0 ≤ time_to_expiry) :
    calculateCallPrice spot_price strike_price risk_free_rate volatility time_to_expiry =
      .ok (callPriceVal spot_price strike_price risk_free_rate volatility time_to_expiry) := by
  have h1 : ¬(spot_price ≤ 0 ∨ strike_price ≤ 0) := by push_neg; exact ⟨hS, hK⟩
  have h2 : ¬time_to_expiry < 0 := not_lt.mpr hT
  simp [calculateCallPrice, h1, h2]

/-- Under the documented preconditions the put pricer does not throw and
returns its branch value. -/
theorem calculatePutPrice_ok (spot_price strike_price risk_free_rate volatility
    time_to_expiry : ℝ) (hS : 0 < spot_price) (hK : 0 < strike_price) (hT : 0 ≤ time_to_expiry) :
    calculatePutPrice spot_price strike_price risk_free_rate volatility time_to_expiry =
      .ok (putPriceVal spot_price strike_price risk_free_rate volatility time_to_expiry) := by
  have h1 : ¬(spot_price ≤ 0 ∨ strike_price ≤ 0) := by push_neg; exact ⟨hS, hK⟩
  have h2 : ¬time_to_expiry < 0 := not_lt.mpr hT
  simp [calculatePutPrice, h1, h2]

/-- Shared characterisation of when the two pricers throw. -/
theorem pricer_error_aux (spot_price strike_price risk_free_rate volatility
    time_to_expiry : ℝ) :
    ((∃ e, calculateCallPrice spot_price strike_price risk_free_rate volatility
        time_to_expiry = .error e) ↔
      (spot_price ≤ 0 ∨ strike_price ≤ 0 ∨ time_to_expiry < 0)) ∧
    ((∃ e, calculatePutPrice spot_price strike_price risk_free_rate volatility
        time_to_expiry = .error e) ↔
      (spot_price ≤ 0 ∨ strike_price ≤ 0 ∨ time_to_expiry < 0)) := by
  by_cases h1 : spot_price ≤ 0 ∨ strike_price ≤ 0
  · constructor <;> · simp [calculateCallPrice, calculatePutPrice, h1]; tauto
  · by_cases h2 : time_to_expiry < 0
    · constructor <;> · simp [calculateCallPrice, calculatePutPrice, h1, h2]
    · constructor <;> · simp [calculateCallPrice, calculatePutPrice, h1, h2]

/-- Claim C2: the pricers throw InvalidArgument exactly on a non-positive
spot or strike or a negative time to expiry; every volatility (negative
included) and every rate is accepted otherwise. -/
theorem pricer_error_iff (spot_price strike_price risk_free_rate volatility
    time_to_expiry : ℝ) :
    ((∃ e, calculateCallPrice spot_price strike_price risk_free_rate volatility
        time_to_expiry = .error e) ↔
      (spot_price ≤ 0 ∨ strike_price ≤ 0 ∨ time_to_expiry < 0)) ∧
    ((∃ e, calculatePutPrice spot_price strike_price risk_free_rate volatility
        time_to_expiry = .error e) ↔
      (spot_price ≤ 0 ∨ strike_price ≤ 0 ∨ time_to_expiry < 0)) :=
  pricer_error_aux spot_price strike_price risk_free_rate volatility time_to_expiry

/-- Claim C3: for positive spot and strike, a time to expiry below the
epsilon returns the intrinsic value, and a volatility below the epsilon
(with T at or above its epsilon) returns the discounted forward intrinsic
value. -/
theorem pricer_degenerate_branches (spot_price strike_price risk_free_rate volatility
    time_to_expiry : ℝ) (hS : 0 < spot_price) (hK : 0 < strike_price) :
    (0 ≤ time_to_expiry → time_to_expiry < MIN_TIME_TO_EXPIRY →
      calculateCallPrice spot_price strike_price risk_free_rate volatility time_to_expiry =
        .ok (max (spot_price - strike_price) 0) ∧
      calculatePutPrice spot_price strike_price risk_free_rate volatility time_to_expiry =
        .ok (max (strike_price - spot_price) 0)) ∧
    (MIN_TIME_TO_EXPIRY ≤ time_to_expiry → volatility < MIN_VOLATILITY →
      calculateCallPrice spot_price strike_price risk_free_rate volatility time_to_expiry =
        .ok (Real.exp (-risk_free_rate * time_to_expiry) *
          max (spot_price * Real.exp (risk_free_rate * time_to_expiry) - strike_price) 0) ∧
      calculatePutPrice spot_price strike_price risk_free_rate volatility time_to_expiry =
        .ok (Real.exp (-risk_free_rate * time_to_expiry) *
          max (strike_price - spot_price * Real.exp (risk_free_rate * time_to_expiry)) 0)) := by
  constructor
  · intro hT0 hTmin
    rw [calculateCallPrice_ok _ _ _ _ _ hS hK hT0, calculatePutPrice_ok _ _ _ _ _ hS hK hT0]
    rw [callPriceVal, putPriceVal, if_pos hTmin, if_pos hTmin]
    exact ⟨rfl, rfl⟩
  · intro hTmin hvol
    have hT0 : (0:ℝ) ≤ time_to_expiry := le_trans (by norm_num [MIN_TIME_TO_EXPIRY]) hTmin
    rw [calculateCallPrice_ok _ _ _ _ _ hS hK hT0, calculatePutPrice_ok _ _ _ _ _ hS hK hT0]
    rw [callPriceVal, putPriceVal, if_neg (not_lt.mpr hTmin), if_neg (not_lt.mpr hTmin),
      if_pos hvol, if_pos hvol]
    exact ⟨rfl, rfl⟩

/-- Witness for claim C3 at spot = 2, strike = 1, rate = 0, vol = 1, T = 0. -/
theorem pricer_degenerate_branches_witness :
    calculateCallPrice 2 1 0 1 0 = .ok (max (2 - 1 : ℝ) 0) ∧
    calculatePutPrice 2 1 0 1 0 = .ok (max (1 - 2 : ℝ) 0) :=
  (pricer_degenerate_branches 2 1 0 1 0 (by norm_num) (by norm_num)).1 le_rfl
    (by norm_num [MIN_TIME_TO_EXPIRY])

/-- Claim C8: on degenerate inputs both Greeks calculators return the
all-zero result and never throw, while the pricers throw InvalidArgument
on a non-positive spot or strike or a negative time to expiry. -/
theorem greeks_degenerate_zero (spot_price strike_price risk_free_rate volatility
    time_to_expiry : ℝ) :
    ((spot_price ≤ 0 ∨ strike_price ≤ 0 ∨ time_to_expiry < MIN_TIME_TO_EXPIRY ∨
        volatility < MIN_VOLATILITY) →
      calculateCallGreeks spot_price strike_price risk_free_rate volatility time_to_expiry =
        ⟨0, 0, 0, 0, 0⟩ ∧
      calculatePutGreeks spot_price strike_price risk_free_rate volatility time_to_expiry =
        ⟨0, 0, 0, 0, 0⟩) ∧
    ((spot_price ≤ 0 ∨ strike_price ≤ 0 ∨ time_to_expiry < 0) →
      (∃ e, calculateCallPrice spot_price strike_price risk_free_rate volatility
        time_to_expiry = .error e) ∧
      (∃ e, calculatePutPrice spot_price strike_price risk_free_rate volatility
        time_to_expiry = .error e)) := by
  constructor
  · intro hdeg
    rw [calculateCallGreeks, calculatePutGreeks, if_pos hdeg, if_pos hdeg]
    exact ⟨rfl, rfl⟩
  · intro hbad
    exact ⟨((pricer_error_aux spot_price strike_price risk_free_rate volatility
        time_to_expiry).1).mpr hbad,
      ((pricer_error_aux spot_price strike_price risk_free_rate volatility
        time_to_expiry).2).mpr hbad⟩

/-- Witness for claim C8 at spot = -1, strike = 1, rate = 0, vol = 1, T = 1. -/
theorem greeks_degenerate_zero_witness :
    (calculateCallGreeks (-1) 1 0 1 1 = ⟨0, 0, 0, 0, 0⟩ ∧
      calculatePutGreeks (-1) 1 0 1 1 = ⟨0, 0, 0, 0, 0⟩) ∧
    ((∃ e, calculateCallPrice (-1) 1 0 1 1 = .error e) ∧
      (∃ e, calculatePutPrice (-1) 1 0 1 1 = .error e)) :=
  ⟨(greeks_degenerate_zero (-1) 1 0 1 1).1 (Or.inl (by norm_num)),
    (greeks_degenerate_zero (-1) 1 0 1 1).2 (Or.inl (by norm_num))⟩

/-- Claim C4: the implied-volatility solver throws InvalidArgument exactly on
a non-positive spot or strike, a time to expiry below the epsilon, or a
negative market price; on every other input it returns a volatility (the
Newton loop and its fallback always produce a value, converged or not). -/
theorem impliedVol_error_iff
    (market_price spot_price strike_price risk_free_rate time_to_expiry : ℝ)
    (option_type : OptionType) :
    ((∃ e, calculateImpliedVolatility market_price spot_price strike_price risk_free_rate
        time_to_expiry option_type = .error e) ↔
      (spot_price ≤ 0 ∨ strike_price ≤ 0 ∨ time_to_expiry < MIN_TIME_TO_EXPIRY ∨
        market_price < 0)) ∧
    (¬(spot_price ≤ 0 ∨ strike_price ≤ 0 ∨ time_to_expiry < MIN_TIME_TO_EXPIRY ∨
        market_price < 0) →
      ∃ v, calculateImpliedVolatility market_price spot_price strike_price risk_free_rate
        time_to_expiry option_type = .ok v) := by
  by_cases h : spot_price ≤ 0 ∨ strike_price ≤ 0 ∨ time_to_expiry < MIN_TIME_TO_EXPIRY ∨
      market_price < 0
  · simp [calculateImpliedVolatility, h]
  · simp [calculateImpliedVolatility, h]

/-- Witness for claim C4 at market price 0, spot 1, strike 1, rate 0, T = 1. -/
theorem impliedVol_error_iff_witness :
    ∃ v, calculateImpliedVolatility 0 1 1 0 1 OptionType.CALL = .ok v :=
  (impliedVol_error_iff 0 1 1 0 1 OptionType.CALL).2
    (by norm_num [MIN_TIME_TO_EXPIRY])

/-- Claim C5: a Newton iteration with vega below 1e-15 (and a price
difference not within tolerance) hands the whole call over to the bisection
fallback, and a fallback whose bracket endpoints fail to bracket a root
returns the default guess 0.3. -/
theorem impliedVol_fallback
    (market_price spot_price strike_price risk_free_rate time_to_expiry : ℝ)
    (option_type : OptionType) :
    (∀ (k : ℕ) (vol vol' : ℝ),
      vol' = (if vol < MIN_VOLATILITY then MIN_VOLATILITY else vol) →
      ¬(|modelPriceVal option_type spot_price strike_price risk_free_rate vol' time_to_expiry -
          market_price| < 1e-5) →
      solverVega spot_price strike_price risk_free_rate vol' time_to_expiry < 1e-15 →
      newtonLoop market_price spot_price strike_price risk_free_rate time_to_expiry
          option_type (k + 1) vol =
        impliedVolatilityBisection market_price spot_price strike_price risk_free_rate
          time_to_expiry option_type) ∧
    ((modelPriceVal option_type spot_price strike_price risk_free_rate 0.0001 time_to_expiry -
        market_price) *
      (modelPriceVal option_type spot_price strike_price risk_free_rate 5.0 time_to_expiry -
        market_price) > 0 →
      impliedVolatilityBisection market_price spot_price strike_price risk_free_rate
        time_to_expiry option_type = 0.3) := by
  constructor
  · intro k vol vol' hv hd hvega
    subst hv
    simp only [newtonLoop]
    rw [if_neg hd, if_pos hvega]
  · intro hbr
    simp only [impliedVolatilityBisection]
    rw [if_pos hbr]

/-- Witness for claim C5: at T = 0 the model price is the intrinsic value 1
(spot 2, strike 1) while vega is 0, so a market price of 100 sends the
Newton step to the fallback, and a market price of 0 makes both bracket
endpoints evaluate to 1, which fails to bracket and yields 0.3. -/
theorem impliedVol_fallback_witness :
    newtonLoop 100 2 1 0 0 OptionType.CALL 1 0.3 =
      impliedVolatilityBisection 100 2 1 0 0 OptionType.CALL ∧
    impliedVolatilityBisection 0 2 1 0 0 OptionType.CALL = 0.3 :=
  ⟨(impliedVol_fallback 100 2 1 0 0 OptionType.CALL).1 0 0.3 0.3
      (by norm_num [MIN_VOLATILITY])
      (by norm_num [modelPriceVal, callPriceVal, callIntrinsic, MIN_TIME_TO_EXPIRY])
      (by simp [solverVega, Real.sqrt_zero]; norm_num),
    (impliedVol_fallback 0 2 1 0 0 OptionType.CALL).2
      (by norm_num [modelPriceVal, callPriceVal, callIntrinsic, MIN_TIME_TO_EXPIRY])⟩

/-- Both endpoints of the bisection loop stay inside the initial bracket, so
its result lies in the initial bracket. -/
theorem bisectLoop_mem
    (market_price spot_price strike_price risk_free_rate time_to_expiry : ℝ)
    (option_type : OptionType) :
    ∀ (fuel : ℕ) (a b fa : ℝ), 0.0001 ≤ a → a ≤ b → b ≤ 5.0 →
      0.0001 ≤ bisectLoop market_price spot_price strike_price risk_free_rate time_to_expiry
          option_type fuel a b fa ∧
        bisectLoop market_price spot_price strike_price risk_free_rate time_to_expiry
          option_type fuel a b fa ≤ 5.0 := by
  intro fuel
  induction fuel with
  | zero =>
    intro a b fa h1 h2 h3
    simp only [bisectLoop]
    constructor <;> linarith
  | succ k IH =>
    intro a b fa h1 h2 h3
    simp only [bisectLoop]
    split_ifs with hw hmid hsign
    · constructor <;> linarith
    · constructor <;> linarith
    · exact IH a (0.5 * (a + b)) fa h1 (by linarith) (by linarith)
    · exact IH (0.5 * (a + b)) b _ (by linarith) (by linarith) h3

/-- The bisection fallback always returns a volatility in [1e-4, 5]. -/
theorem impliedVolatilityBisection_mem
    (market_price spot_price strike_price risk_free_rate time_to_expiry : ℝ)
    (option_type : OptionType) :
    0.0001 ≤ impliedVolatilityBisection market_price spot_price strike_price risk_free_rate
        time_to_expiry option_type ∧
      impliedVolatilityBisection market_price spot_price strike_price risk_free_rate
        time_to_expiry option_type ≤ 5.0 := by
  simp only [impliedVolatilityBisection]
  split_ifs
  · constructor <;> norm_num
  · exact bisectLoop_mem market_price spot_price strike_price risk_free_rate time_to_expiry
      option_type 80 0.0001 5.0 _ le_rfl (by norm_num) le_rfl

/-- The Newton loop keeps the volatility iterate inside [1e-4, 5]. -/
theorem newtonLoop_mem
    (market_price spot_price strike_price risk_free_rate time_to_expiry : ℝ)
    (option_type : OptionType) :
    ∀ (fuel : ℕ) (vol : ℝ), 0.0001 ≤ vol → vol ≤ 5.0 →
      0.0001 ≤ newtonLoop market_price spot_price strike_price risk_free_rate time_to_expiry
          option_type fuel vol ∧
        newtonLoop market_price spot_price strike_price risk_free_rate time_to_expiry
          option_type fuel vol ≤ 5.0 := by
  intro fuel
  induction fuel with
  | zero =>
    intro vol h1 h2
    exact impliedVolatilityBisection_mem market_price spot_price strike_price risk_free_rate
      time_to_expiry option_type
  | succ k IH =>
    intro vol h1 h2
    simp only [newtonLoop]
    have hcl : (if vol < MIN_VOLATILITY then MIN_VOLATILITY else vol) = vol :=
      if_neg (not_lt.mpr (le_trans (by norm_num [MIN_VOLATILITY]) h1))
    rw [hcl]
    split_ifs
    · exact ⟨h1, h2⟩
    · exact impliedVolatilityBisection_mem market_price spot_price strike_price risk_free_rate
        time_to_expiry option_type
    · exact IH _ (le_max_left _ _) (max_le (by norm_num) (min_le_right _ _))

/-- Claim C10: for every input satisfying the precondition, the returned
implied volatility lies in [1e-4, 5]. -/
theorem impliedVol_range
    (market_price spot_price strike_price risk_free_rate time_to_expiry : ℝ)
    (option_type : OptionType) (hS : 0 < spot_price) (hK : 0 < strike_price)
    (hT : MIN_TIME_TO_EXPIRY ≤ time_to_expiry) (hm : 0 ≤ market_price) :
    ∃ v, calculateImpliedVolatility market_price spot_price strike_price risk_free_rate
        time_to_expiry option_type = .ok v ∧ 0.0001 ≤ v ∧ v ≤ 5.0 := by
  have hcond : ¬(spot_price ≤ 0 ∨ strike_price ≤ 0 ∨
      time_to_expiry < MIN_TIME_TO_EXPIRY ∨ market_price < 0) := by
    push_neg
    exact ⟨hS, hK, hT, hm⟩
  rw [calculateImpliedVolatility, if_neg hcond]
  exact ⟨_, rfl, newtonLoop_mem market_price spot_price strike_price risk_free_rate
    time_to_expiry option_type 100 0.3 (by norm_num) (by norm_num)⟩

/-- Witness for claim C10 at market price 0, spot 1, strike 1, rate 0, T = 1. -/
theorem impliedVol_range_witness :
    ∃ v, calculateImpliedVolatility 0 1 1 0 1 OptionType.PUT = .ok v ∧
      0.0001 ≤ v ∧ v ≤ 5.0 :=
  impliedVol_range 0 1 1 0 1 OptionType.PUT (by norm_num) (by norm_num)
    (by norm_num [MIN_TIME_TO_EXPIRY]) le_rfl

/-- Unfolding equation of the chunk-issuance loop. -/
theorem buildChunks_eq (n c start : ℕ) :
    buildChunks n c start =
      if start < n ∧ 0 < c then
        (start, min (start + c) n) :: buildChunks n c (min (start + c) n)
      else [] := by
  rw [buildChunks]
  rfl

/-- The issued chunk sizes sum to the remaining simulation count. -/
theorem buildChunks_sum_aux (n c : ℕ) (hc : 0 < c) :
    ∀ (m start : ℕ), n - start ≤ m →
      ((buildChunks n c start).map (fun p => p.2 - p.1)).sum = n - start := by
  intro m
  induction m with
  | zero =>
    intro start hm
    rw [buildChunks_eq, if_neg (fun hh => by omega)]
    simp
    omega
  | succ k IH =>
    intro start hm
    by_cases h : start < n
    · rw [buildChunks_eq, if_pos ⟨h, hc⟩]
      simp only [List.map_cons, List.sum_cons]
      rw [IH (min (start + c) n) (by omega)]
      omega
    · rw [buildChunks_eq, if_neg (fun hh => h hh.1)]
      simp
      omega

/-- Enough chunks are issued to cover all simulations. -/
theorem buildChunks_len_aux (n c : ℕ) (hc : 0 < c) :
    ∀ (m start : ℕ), n - start ≤ m →
      n ≤ start + (buildChunks n c start).length * c := by
  intro m
  induction m with
  | zero =>
    intro start hm
    omega
  | succ k IH =>
    intro start hm
    by_cases h : start < n
    · rw [buildChunks_eq, if_pos ⟨h, hc⟩, List.length_cons, Nat.succ_mul]
      have IH' := IH (min (start + c) n) (by omega)
      omega
    · omega

/-- Every issued chunk is nonempty, no larger than the chunk size, and ends
within the simulation count. -/
theorem buildChunks_mem_aux (n c : ℕ) (hc : 0 < c) :
    ∀ (m start : ℕ), n - start ≤ m →
      ∀ p ∈ buildChunks n c start, p.1 < p.2 ∧ p.2 - p.1 ≤ c ∧ p.2 ≤ n := by
  intro m
  induction m with
  | zero =>
    intro start hm p hp
    rw [buildChunks_eq, if_neg (fun hh => by omega)] at hp
    simp at hp
  | succ k IH =>
    intro start hm p hp
    by_cases h : start < n
    · rw [buildChunks_eq, if_pos ⟨h, hc⟩] at hp
      rcases List.mem_cons.mp hp with hp | hp
      · subst hp
        refine ⟨?_, ?_, ?_⟩ <;> simp <;> omega
      · exact IH (min (start + c) n) (by omega) p hp
    · rw [buildChunks_eq, if_neg (fun hh => h hh.1)] at hp
      simp at hp

/-- Consecutive chunks are contiguous: each chunk starts where the previous
one ended. -/
theorem buildChunks_chain_aux (n c : ℕ) (hc : 0 < c) :
    ∀ (m start : ℕ), n - start ≤ m →
      List.Chain' (fun p q : ℕ × ℕ => p.2 = q.1) (buildChunks n c start) := by
  intro m
  induction m with
  | zero =>
    intro start hm
    rw [buildChunks_eq, if_neg (fun hh => by omega)]
    simp
  | succ k IH =>
    intro start hm
    by_cases h : start < n
    · rw [buildChunks_eq, if_pos ⟨h, hc⟩]
      refine List.chain'_cons'.mpr ⟨?_, IH (min (start + c) n) (by omega)⟩
      intro q hq
      rw [buildChunks_eq] at hq
      split_ifs at hq with h2
      · simp at hq
        rw [← hq]
      · simp at hq
    · rw [buildChunks_eq, if_neg (fun hh => h hh.1)]
      simp

/-- Claim C7: the pricer clamps the simulation count to at least 1,
partitions it into contiguous chunks of at most max(500, n / workerCount)
simulations each (the chunk-size parameter), reports progress once per
chunk in issuance order, and the final reported handled count is exactly
the clamped simulation count. -/
theorem monteCarlo_chunking (num_simulations : ℤ) (n_workers n c : ℕ)
    (hw : 0 < n_workers) (hn : n = (max 1 num_simulations).toNat)
    (hc : c = mcChunkSize num_simulations n_workers) :
    c = max 500 (n / n_workers) ∧
    mcChunks n c ≠ [] ∧
    ((mcChunks n c).head?.map Prod.fst = some 0) ∧
    ((mcChunks n c).map (fun p => p.2 - p.1)).sum = n ∧
    (∀ p ∈ mcChunks n c, p.1 < p.2 ∧ p.2 - p.1 ≤ c ∧ p.2 ≤ n) ∧
    List.Chain' (fun p q : ℕ × ℕ => p.2 = q.1) (mcChunks n c) ∧
    (progressTrace n c).length = (mcChunks n c).length ∧
    (progressTrace n c).getLast? = some n := by
  have hn1 : 0 < n := by
    rw [hn]
    omega
  have hc500 : 500 ≤ c := by
    rw [hc, mcChunkSize, MIN_CHUNK]
    exact le_max_left _ _
  have hc0 : 0 < c := by omega
  have hcons : mcChunks n c =
      (0, min c n) :: buildChunks n c (min c n) := by
    rw [mcChunks, buildChunks_eq, if_pos ⟨hn1, hc0⟩]
    norm_num
  refine ⟨?_, ?_, ?_, ?_, ?_, ?_, ?_, ?_⟩
  · rw [hc, mcChunkSize, MIN_CHUNK, hn]
  · rw [hcons]
    simp
  · rw [hcons]
    simp
  · have := buildChunks_sum_aux n c hc0 n 0 (by omega)
    rw [mcChunks]
    omega
  · exact buildChunks_mem_aux n c hc0 n 0 (by omega)
  · exact buildChunks_chain_aux n c hc0 n 0 (by omega)
  · rw [progressTrace, List.length_map, List.length_range]
  · have hlen : 0 < (mcChunks n c).length := by
      rw [hcons]
      simp
    obtain ⟨K, hK⟩ : ∃ K, (mcChunks n c).length = K + 1 := ⟨(mcChunks n c).length - 1, by omega⟩
    have hcov : n ≤ (K + 1) * c := by
      have := buildChunks_len_aux n c hc0 n 0 (by omega)
      rw [mcChunks] at hK
      rw [hK] at this
      omega
    rw [progressTrace, hK, List.range_succ, List.map_append, List.map_cons, List.map_nil,
      List.getLast?_concat]
    congr 1
    omega

/-- Witness for claim C7 at 1000 simulations and 4 workers:
chunk size max(500, 250) = 500. -/
theorem monteCarlo_chunking_witness :
    (500 : ℕ) = max 500 (1000 / 4) ∧
    mcChunks 1000 500 ≠ [] ∧
    ((mcChunks 1000 500).head?.map Prod.fst = some 0) ∧
    ((mcChunks 1000 500).map (fun p => p.2 - p.1)).sum = 1000 ∧
    (∀ p ∈ mcChunks 1000 500, p.1 < p.2 ∧ p.2 - p.1 ≤ 500 ∧ p.2 ≤ 1000) ∧
    List.Chain' (fun p q : ℕ × ℕ => p.2 = q.1) (mcChunks 1000 500) ∧
    (progressTrace 1000 500).length = (mcChunks 1000 500).length ∧
    (progressTrace 1000 500).getLast? = some 1000 :=
  monteCarlo_chunking 1000 4 1000 500 (by norm_num) (by decide)
    (by decide)

/-- Counterexample to claim C6: at T = 0.003 the chunk simulators run
`static_cast<int>(252 * T)` = 0 daily steps, while round(252·0.003) =
round(0.756) = 1. -/
theorem mc_steps_counterexample :
    ¬((mcSteps 0.003 : ℤ) = round ((252 : ℝ) * 0.003)) := by
  have h1 : truncToInt (TRADING_DAYS_PER_YEAR * 0.003) = 0 := by
    rw [truncToInt, if_pos (by norm_num [TRADING_DAYS_PER_YEAR])]
    rw [Int.floor_eq_iff]
    norm_num [TRADING_DAYS_PER_YEAR]
  have h2 : round ((252 : ℝ) * 0.003) = 1 := by
    rw [round_eq]
    rw [show ((252 : ℝ) * 0.003 + 1 / 2) = 1.256 by norm_num]
    rw [Int.floor_eq_iff]
    norm_num
  rw [mcSteps, h1, h2]
  norm_num

/-- Claim C6 as amended: the number of daily steps per simulated path is
252·T truncated toward zero (the floor for T ≥ 0), and each step multiplies
the running price by exp((rate − ½vol²)·dt + vol·√dt·z) with dt = T/252 and
z the successive draws of the chunk generator (abstracted as an oracle), so
after n steps the price is spot times the exponential of the summed
log-price increments. -/
theorem mc_steps_and_increment (spot risk_free_rate volatility time_to_expiry : ℝ)
    (z : ℕ → ℝ) (hT : 0 ≤ time_to_expiry) :
    mcSteps time_to_expiry = (⌊TRADING_DAYS_PER_YEAR * time_to_expiry⌋).toNat ∧
    (∀ n, mcPath spot risk_free_rate volatility time_to_expiry z (n + 1) =
      mcPath spot risk_free_rate volatility time_to_expiry z n *
        Real.exp ((risk_free_rate - 0.5 * volatility * volatility) *
            (time_to_expiry / TRADING_DAYS_PER_YEAR) +
          volatility * Real.sqrt (time_to_expiry / TRADING_DAYS_PER_YEAR) * z n)) ∧
    (∀ n, mcPath spot risk_free_rate volatility time_to_expiry z n =
      spot * Real.exp (∑ t in Finset.range n,
        ((risk_free_rate - 0.5 * volatility * volatility) *
            (time_to_expiry / TRADING_DAYS_PER_YEAR) +
          volatility * Real.sqrt (time_to_expiry / TRADING_DAYS_PER_YEAR) * z t))) := by
  refine ⟨?_, fun n => rfl, ?_⟩
  · rw [mcSteps, truncToInt,
      if_pos (mul_nonneg (by norm_num [TRADING_DAYS_PER_YEAR]) hT)]
  · intro n
    induction n with
    | zero => simp [mcPath]
    | succ k IH =>
      rw [mcPath, IH, Finset.sum_range_succ]
      conv_rhs => rw [Real.exp_add]
      ring

/-- Witness for the amended claim C6 at spot 1, rate 0, vol 0, T = 1. -/
theorem mc_steps_and_increment_witness :
    mcSteps 1 = (⌊TRADING_DAYS_PER_YEAR * 1⌋).toNat ∧
    (∀ n, mcPath 1 0 0 1 (fun _ => 0) (n + 1) =
      mcPath 1 0 0 1 (fun _ => 0) n *
        Real.exp ((0 - 0.5 * 0 * 0) * (1 / TRADING_DAYS_PER_YEAR) +
          0 * Real.sqrt (1 / TRADING_DAYS_PER_YEAR) * 0)) ∧
    (∀ n, mcPath 1 0 0 1 (fun _ => 0) n =
      1 * Real.exp (∑ t in Finset.range n,
        ((0 - 0.5 * 0 * 0) * (1 / TRADING_DAYS_PER_YEAR) +
          0 * Real.sqrt (1 / TRADING_DAYS_PER_YEAR) * 0))) :=
  mc_steps_and_increment 1 0 0 1 (fun _ => 0) zero_le_one

/-- Counterexample to claim C9: with a negative long strike (still below the
short strike) the constructor's leg pricing throws, so construction does not
succeed even though longStrike < shortStrike. -/
theorem bullCallSpread_counterexample :
    (-1 : ℝ) < 1 ∧
    mkBullCallSpread 1 (-1) 1 1 0 1 =
      .error "Invalid input: spot and strike must be positive" := by
  constructor
  · norm_num
  · rw [mkBullCallSpread, if_neg (by norm_num)]
    have h : calculateCallPrice 1 (-1) 0 1 1 =
        .error "Invalid input: spot and strike must be positive" := by
      rw [calculateCallPrice, if_pos (Or.inr (by norm_num))]
    rw [h]

/-- Claim C9 as amended: constructing a BullCallSpread with
longStrike ≥ shortStrike fails with the strike-ordering InvalidArgument
(thrown before any leg is priced); when longStrike < shortStrike and the
leg pricers accept the inputs (spot > 0, longStrike > 0, T ≥ 0),
construction succeeds, the net debit is the premium difference times 100,
maxProfit = (shortStrike − longStrike)·100 − netDebit, maxLoss = netDebit,
and the breakeven is longStrike + netDebit/100. -/
theorem bullCallSpread_correct (current_price long_strike short_strike volatility
    risk_free_rate time_to_expiry : ℝ) :
    (short_strike ≤ long_strike →
      mkBullCallSpread current_price long_strike short_strike volatility risk_free_rate
          time_to_expiry =
        .error "Long call strike must be lower than short call strike for a bull call spread") ∧
    (long_strike < short_strike → 0 < current_price → 0 < long_strike →
      0 ≤ time_to_expiry →
      ∃ s, mkBullCallSpread current_price long_strike short_strike volatility risk_free_rate
          time_to_expiry = .ok s ∧
        s.entry_price =
          (callPriceVal current_price long_strike risk_free_rate volatility time_to_expiry -
            callPriceVal current_price short_strike risk_free_rate volatility time_to_expiry)
            * 100 ∧
        s.calculateMaxProfit = (short_strike - long_strike) * 100 - s.entry_price ∧
        s.calculateMaxLoss = s.entry_price ∧
        s.calculateBreakevens = [long_strike + s.entry_price / 100]) := by
  constructor
  · intro hord
    rw [mkBullCallSpread, if_pos hord]
  · intro hlt hS hKl hT
    have hKs : 0 < short_strike := lt_trans hKl hlt
    rw [mkBullCallSpread, if_neg (not_le.mpr hlt),
      calculateCallPrice_ok current_price long_strike risk_free_rate volatility
        time_to_expiry hS hKl hT,
      calculateCallPrice_ok current_price short_strike risk_free_rate volatility
        time_to_expiry hS hKs hT]
    exact ⟨_, rfl, rfl, rfl, rfl, rfl⟩

/-- Witness for the amended claim C9 at spot 1, strikes 1 < 2, vol 1,
rate 0, T = 1. -/
theorem bullCallSpread_correct_witness :
    ∃ s, mkBullCallSpread 1 1 2 1 0 1 = .ok s ∧
      s.entry_price = (callPriceVal 1 1 0 1 1 - callPriceVal 1 2 0 1 1) * 100 ∧
      s.calculateMaxProfit = ((2 : ℝ) - 1) * 100 - s.entry_price ∧
      s.calculateMaxLoss = s.entry_price ∧
      s.calculateBreakevens = [1 + s.entry_price / 100] :=
  (bullCallSpread_correct 1 1 2 1 0 1).2 (by norm_num) (by norm_num) (by norm_num)
    (by norm_num)

/-- The error function is odd. -/
theorem erf_neg (x : ℝ) : erf (-x) = -erf x := by
  have h1 : (∫ t in (0:ℝ)..x, Real.exp (-((-t) ^ 2))) =
      ∫ t in (-x)..(-(0:ℝ)), Real.exp (-(t ^ 2)) :=
    intervalIntegral.integral_comp_neg (fun t => Real.exp (-(t ^ 2)))
  have h2 : (∫ t in (0:ℝ)..x, Real.exp (-((-t) ^ 2))) =
      ∫ t in (0:ℝ)..x, Real.exp (-(t ^ 2)) := by
    simp [neg_sq]
  have h3 : (∫ t in (-x)..(-(0:ℝ)), Real.exp (-(t ^ 2))) =
      ∫ t in (-x)..(0:ℝ), Real.exp (-(t ^ 2)) := by
    norm_num
  have h4 : (∫ t in (-x)..(0:ℝ), Real.exp (-(t ^ 2))) =
      -∫ t in (0:ℝ)..(-x), Real.exp (-(t ^ 2)) :=
    intervalIntegral.integral_symm 0 (-x)
  have hE : (∫ t in (0:ℝ)..(-x), Real.exp (-(t ^ 2))) =
      -∫ t in (0:ℝ)..x, Real.exp (-(t ^ 2)) := by
    linarith [h1, h2, h3, h4]
  rw [erf, erf, hE]
  ring

/-- The embedded standard normal CDF satisfies N(x) + N(-x) = 1. -/
theorem standardNormalCDF_add_neg (x : ℝ) :
    standardNormalCDF x + standardNormalCDF (-x) = 1 := by
  rw [standardNormalCDF, standardNormalCDF, neg_div, erf_neg]
  ring

/-- Elementary bound used for the tiny-T parity deviation. -/
theorem abs_exp_sub_one_le (x : ℝ) : |Real.exp x - 1| ≤ Real.exp |x| - 1 := by
  rcases le_or_lt 0 x with h | h
  · have h1 := Real.add_one_le_exp x
    rw [abs_of_nonneg h, abs_of_nonneg (by linarith : (0:ℝ) ≤ Real.exp x - 1)]
  · have hle : Real.exp x ≤ 1 := by
      rw [← Real.exp_zero]
      exact Real.exp_le_exp.mpr (le_of_lt h)
    rw [abs_of_neg h, abs_of_nonpos (by linarith : Real.exp x - 1 ≤ 0)]
    have hc := Real.one_le_cosh x
    rw [Real.cosh_eq] at hc
    linarith

/-- Exact put-call parity of the branch values once T is at or above the
epsilon (the zero-volatility and closed-form branches). -/
theorem priceVal_parity (spot_price strike_price risk_free_rate volatility time_to_expiry : ℝ)
    (hT2 : MIN_TIME_TO_EXPIRY ≤ time_to_expiry) :
    callPriceVal spot_price strike_price risk_free_rate volatility time_to_expiry -
        putPriceVal spot_price strike_price risk_free_rate volatility time_to_expiry =
      spot_price - strike_price * Real.exp (-risk_free_rate * time_to_expiry) := by
  rw [callPriceVal, putPriceVal, if_neg (not_lt.mpr hT2), if_neg (not_lt.mpr hT2)]
  have hexp : Real.exp (-risk_free_rate * time_to_expiry) *
      Real.exp (risk_free_rate * time_to_expiry) = 1 := by
    rw [← Real.exp_add,
      show -risk_free_rate * time_to_expiry + risk_free_rate * time_to_expiry = 0 by ring,
      Real.exp_zero]
  by_cases hvol : volatility < MIN_VOLATILITY
  · rw [if_pos hvol, if_pos hvol]
    have hmax : max (spot_price * Real.exp (risk_free_rate * time_to_expiry) - strike_price) 0 -
        max (strike_price - spot_price * Real.exp (risk_free_rate * time_to_expiry)) 0 =
        spot_price * Real.exp (risk_free_rate * time_to_expiry) - strike_price := by
      rw [show strike_price - spot_price * Real.exp (risk_free_rate * time_to_expiry) =
          -(spot_price * Real.exp (risk_free_rate * time_to_expiry) - strike_price) by ring]
      exact max_zero_sub_eq_self _
    linear_combination Real.exp (-risk_free_rate * time_to_expiry) * hmax + spot_price * hexp
  · rw [if_neg hvol, if_neg hvol]
    dsimp only
    have h1 := standardNormalCDF_add_neg
      ((Real.log (spot_price / strike_price) +
        (risk_free_rate + 0.5 * (volatility * volatility)) * time_to_expiry) /
        (volatility * Real.sqrt time_to_expiry))
    have h2 := standardNormalCDF_add_neg
      ((Real.log (spot_price / strike_price) +
        (risk_free_rate + 0.5 * (volatility * volatility)) * time_to_expiry) /
        (volatility * Real.sqrt time_to_expiry) - volatility * Real.sqrt time_to_expiry)
    linear_combination spot_price * h1 -
      strike_price * Real.exp (-risk_free_rate * time_to_expiry) * h2

/-- Claim C1: put-call parity. For every accepted input both pricers return,
and callPrice − putPrice deviates from spot − strike·exp(−rate·T) by at most
strike·(exp(|rate|·T) − 1) — zero except in the T-below-epsilon branch,
where T < 1e-10 makes the deviation float-negligible; at or above the
epsilon (the zero-volatility and closed-form branches) parity is exact. -/
theorem put_call_parity (spot_price strike_price risk_free_rate volatility time_to_expiry : ℝ)
    (hS : 0 < spot_price) (hK : 0 < strike_price) (hT : 0 ≤ time_to_expiry) :
    ∃ c p, calculateCallPrice spot_price strike_price risk_free_rate volatility
        time_to_expiry = .ok c ∧
      calculatePutPrice spot_price strike_price risk_free_rate volatility
        time_to_expiry = .ok p ∧
      |c - p - (spot_price - strike_price * Real.exp (-risk_free_rate * time_to_expiry))| ≤
        strike_price * (Real.exp (|risk_free_rate| * time_to_expiry) - 1) ∧
      (MIN_TIME_TO_EXPIRY ≤ time_to_expiry →
        c - p = spot_price - strike_price * Real.exp (-risk_free_rate * time_to_expiry)) := by
  refine ⟨_, _, calculateCallPrice_ok spot_price strike_price risk_free_rate volatility
    time_to_expiry hS hK hT,
    calculatePutPrice_ok spot_price strike_price risk_free_rate volatility
      time_to_expiry hS hK hT, ?_, ?_⟩
  · by_cases hT2 : MIN_TIME_TO_EXPIRY ≤ time_to_expiry
    · rw [priceVal_parity spot_price strike_price risk_free_rate volatility time_to_expiry hT2]
      rw [sub_self, abs_zero]
      have hge : (1:ℝ) ≤ Real.exp (|risk_free_rate| * time_to_expiry) := by
        rw [← Real.exp_zero]
        exact Real.exp_le_exp.mpr (mul_nonneg (abs_nonneg risk_free_rate) hT)
      have := mul_nonneg hK.le (by linarith : (0:ℝ) ≤
        Real.exp (|risk_free_rate| * time_to_expiry) - 1)
      linarith
    · push_neg at hT2
      rw [callPriceVal, putPriceVal, if_pos hT2, if_pos hT2, callIntrinsic, putIntrinsic]
      have hmax : max (spot_price - strike_price) 0 - max (strike_price - spot_price) 0 =
          spot_price - strike_price := by
        rw [show strike_price - spot_price = -(spot_price - strike_price) by ring]
        exact max_zero_sub_eq_self _
      rw [hmax,
        show spot_price - strike_price -
            (spot_price - strike_price * Real.exp (-risk_free_rate * time_to_expiry)) =
          strike_price * (Real.exp (-risk_free_rate * time_to_expiry) - 1) by ring,
        abs_mul, abs_of_pos hK]
      have hb := abs_exp_sub_one_le (-risk_free_rate * time_to_expiry)
      rw [show |(-risk_free_rate * time_to_expiry)| = |risk_free_rate| * time_to_expiry by
        rw [abs_mul, abs_neg, abs_of_nonneg hT]] at hb
      exact mul_le_mul_of_nonneg_left hb hK.le
  · intro hT2
    exact priceVal_parity spot_price strike_price risk_free_rate volatility time_to_expiry hT2

/-- Witness for claim C1 at spot 1, strike 1, rate 0, vol 1, T = 1. -/
theorem put_call_parity_witness :
    ∃ c p, calculateCallPrice 1 1 0 1 1 = .ok c ∧ calculatePutPrice 1 1 0 1 1 = .ok p ∧
      |c - p - (1 - 1 * Real.exp (-0 * 1))| ≤ 1 * (Real.exp (|(0:ℝ)| * 1) - 1) ∧
      (MIN_TIME_TO_EXPIRY ≤ (1:ℝ) → c - p = 1 - 1 * Real.exp (-0 * 1)) :=
  put_call_parity 1 1 0 1 1 one_pos one_pos zero_le_one

end BS
